import Mathlib

/-!
Verification of the streaming chat orchestrator of `nextjs-ai-chatbot-03`.

The development shallowly embeds the relevant TypeScript source files:

* `lib/ai/index.ts` — model gateway: `maskApiKey` and the module-level
  `console.log` of the Anthropic API key;
* `lib/ai/models.ts` — the static model descriptor list;
* `lib/utils.ts` — `sanitizeResponseMessages`, `getMostRecentUserMessage`;
* `lib/db/queries.ts` — the persistence façade (`getChatById`,
  `deleteChatById`, `getDocumentById`, `saveDocument`, `saveChat`,
  `saveMessages`, `saveSuggestions`), modelled as pure transformers of an
  explicit `Storage` record;
* `app/(chat)/api/chat/route.ts` — the tool handlers
  (`handleCreateDocument`, `handleUpdateDocument`,
  `handleRequestSuggestions`, `streamDocumentContent`) and the `POST` /
  `DELETE` request handlers.

The data-stream writes performed through `dataStream.writeData` become an
explicit list of `StreamEvent`s returned by each handler; the output of the
language-model SDK streams (`streamText` / `streamObject`) becomes an input
parameter (`StreamInput`, a list of stream parts), and `generateUUID` /
`new Date()` become explicit `freshId` / `now` parameters.
-/

/-- Kind of a document block: the TS union `'text' | 'code'`. -/
inductive DocKind
  | text
  | code
deriving DecidableEq, Repr, BEq

/-- String form of a `DocKind`, as it appears in stream-event payloads. -/
def kindToString : DocKind → String
  | DocKind.text => "text"
  | DocKind.code => "code"

/-- Suggestion object as streamed to the client by `handleRequestSuggestions`
(fields pushed before `userId`/`createdAt`/`documentCreatedAt` are added). -/
structure StreamedSuggestion where
  originalText : String
  suggestedText : String
  description : String
  id : String
  documentId : String
  isResolved : Bool
deriving DecidableEq, Repr

/-- One event written to the data stream: the tagged writes of
`route.ts` (`DATA_STREAM_TYPES`). -/
inductive StreamEvent
  | userMessageId (content : String)
  | id (content : String)
  | title (content : String)
  | kind (content : String)
  | clear (content : String)
  | textDelta (content : String)
  | codeDelta (content : String)
  | finish (content : String)
  | suggestion (content : StreamedSuggestion)
deriving DecidableEq, Repr

/-- True exactly on `text-delta` and `code-delta` events. -/
def isDeltaEvent : StreamEvent → Bool
  | StreamEvent.textDelta _ => true
  | StreamEvent.codeDelta _ => true
  | _ => false

/-- True exactly on `finish` events. -/
def isFinishEvent : StreamEvent → Bool
  | StreamEvent.finish _ => true
  | _ => false

/-- True exactly on `id` events. -/
def isIdEvent : StreamEvent → Bool
  | StreamEvent.id _ => true
  | _ => false

/-- True exactly on `suggestion` events. -/
def isSuggestionEvent : StreamEvent → Bool
  | StreamEvent.suggestion _ => true
  | _ => false

/-- Payloads of the `suggestion` events of an event list, in order. -/
def suggestionPayloads : List StreamEvent → List StreamedSuggestion
  | [] => []
  | StreamEvent.suggestion s :: rest => s :: suggestionPayloads rest
  | _ :: rest => suggestionPayloads rest

/-- Concatenation, in order, of the payloads of the `text-delta` events of an
event list. -/
def emittedTextConcat : List StreamEvent → String
  | [] => ""
  | StreamEvent.textDelta s :: rest => s ++ emittedTextConcat rest
  | _ :: rest => emittedTextConcat rest

/-- Payload of the last `code-delta` event of the list, or the default `d`
when the list has none. -/
def lastCodeDeltaPayload : List StreamEvent → String → String
  | [], d => d
  | StreamEvent.codeDelta c :: rest, _ => lastCodeDeltaPayload rest c
  | _ :: rest, d => lastCodeDeltaPayload rest d

/-! ## Model gateway (`lib/ai/index.ts`, `lib/ai/models.ts`) -/

/-- Model descriptor from `lib/ai/models.ts` (`interface Model`). -/
structure Model where
  id : String
  label : String
  apiIdentifier : String
  description : String
deriving DecidableEq, Repr

/-- The configured model list of `lib/ai/models.ts` (the Claude and
Perplexity entries are commented out in the source). -/
def models : List Model :=
  [ { id := "gpt-4o", label := "Weiming AI Standard",
      apiIdentifier := "gpt-4o", description := "For complex, multi-step tasks" },
    { id := "gpt-4o-mini", label := "Weiming AI Mini",
      apiIdentifier := "gpt-4o-mini", description := "Small model for fast, lightweight tasks" },
    { id := "gemini-2.0-flash-exp", label := "Weiming AI Flash",
      apiIdentifier := "gemini-2.0-flash-exp", description := "Fast and efficient model" } ]

/-- `DEFAULT_MODEL_NAME` of `lib/ai/models.ts`. -/
def DEFAULT_MODEL_NAME : String := "gemini-2.0-flash-exp"

/-- `maskApiKey` of `lib/ai/index.ts`: keeps the first and last four
characters. The guard `if (!apiKey)` is true for `undefined` and for the
empty string (JS falsiness); `slice(0, 4)` and `slice(-4)` clamp on short
strings. -/
def maskApiKey (apiKey : Option String) : String :=
  match apiKey with
  | none => "🔑 API Key is NOT set."
  | some k =>
    if k = "" then "🔑 API Key is NOT set."
    else String.mk (k.data.take 4) ++ "..." ++ String.mk (k.data.drop (k.length - 4))

/-- The line written by the module-level
`console.log("Anthropic API Key:", process.env.ANTHROPIC_API_KEY)` of
`lib/ai/index.ts` (console.log joins its arguments with a space and prints
`undefined` for an unset variable). -/
def anthropicKeyInitLog (envKey : Option String) : String :=
  "Anthropic API Key: " ++ (match envKey with | some k => k | none => "undefined")

/-- Boolean test: `needle` starts the given character list. -/
def startsWithChars : List Char → List Char → Bool
  | [], _ => true
  | _ :: _, [] => false
  | a :: as, b :: bs => a == b && startsWithChars as bs

/-- Boolean test: `needle` occurs contiguously inside the character list. -/
def charsContain (needle : List Char) : List Char → Bool
  | [] => startsWithChars needle []
  | c :: rest => startsWithChars needle (c :: rest) || charsContain needle rest

/-- Boolean substring test on strings. -/
def strContains (hay needle : String) : Bool :=
  charsContain needle.data hay.data

/-! ## Response-message sanitization (`lib/utils.ts`) -/

/-- One part of an assistant message's structured content: text segments,
tool-call requests, and any other part type (kept by the filter's final
`true` branch). -/
inductive AsstPart
  | text (t : String)
  | toolCall (toolCallId : String)
  | otherPart
deriving DecidableEq, Repr

/-- One part of a tool message's content. -/
inductive ToolPart
  | toolResult (toolCallId : String)
  | otherResult
deriving DecidableEq, Repr

/-- Assistant message content: a plain string or a list of typed parts. -/
inductive RespContent
  | str (s : String)
  | parts (ps : List AsstPart)
deriving DecidableEq, Repr

/-- A response message fed to `sanitizeResponseMessages`:
`CoreAssistantMessage | CoreToolMessage`. -/
inductive RespMessage
  | assistant (content : RespContent)
  | toolMsg (content : List ToolPart)
deriving DecidableEq, Repr

/-- The tool-call id of a `tool-result` content part, if any. -/
def resultId : ToolPart → Option String
  | ToolPart.toolResult tid => some tid
  | ToolPart.otherResult => none

/-- First loop of `sanitizeResponseMessages`: collect the `toolCallId` of
every `tool-result` part of every tool message, in order. -/
def toolResultIds : List RespMessage → List String
  | [] => []
  | RespMessage.toolMsg ps :: rest => ps.filterMap resultId ++ toolResultIds rest
  | RespMessage.assistant _ :: rest => toolResultIds rest

/-- The content filter applied to assistant part lists: a `tool-call` part is
kept iff its id has a matching tool result, a `text` part iff its text is
nonempty, any other part unconditionally. -/
def keepPart (ids : List String) : AsstPart → Bool
  | AsstPart.toolCall tid => ids.contains tid
  | AsstPart.text t => decide (0 < t.length)
  | AsstPart.otherPart => true

/-- The per-message map of `sanitizeResponseMessages`: non-assistant messages
and string-content assistant messages pass through; part-list content is
filtered with `keepPart`. -/
def sanitizeMessage (ids : List String) : RespMessage → RespMessage
  | RespMessage.assistant (RespContent.parts ps) =>
      RespMessage.assistant (RespContent.parts (ps.filter (keepPart ids)))
  | m => m

/-- `message.content.length` as used by the final filter: string length for
string content, list length otherwise. -/
def contentLength : RespMessage → Nat
  | RespMessage.assistant (RespContent.str s) => s.length
  | RespMessage.assistant (RespContent.parts ps) => ps.length
  | RespMessage.toolMsg ps => ps.length

/-- The final filter of `sanitizeResponseMessages`:
`message.content.length > 0`. -/
def keepNonEmpty (m : RespMessage) : Bool :=
  decide (0 < contentLength m)

/-- `sanitizeResponseMessages` of `lib/utils.ts`. -/
def sanitizeResponseMessages (ms : List RespMessage) : List RespMessage :=
  let ids := toolResultIds ms
  (ms.map (sanitizeMessage ids)).filter keepNonEmpty

/-! ## Persistence façade (`lib/db/queries.ts`), as pure storage transformers -/

/-- A row of the `chat` table. -/
structure ChatRow where
  id : String
  userId : String
  title : String
  createdAt : Nat
deriving DecidableEq, Repr

/-- A row of the `message` table. -/
structure MessageRow where
  id : String
  chatId : String
  role : String
  content : String
  createdAt : Nat
deriving DecidableEq, Repr

/-- A row of the `document` table; `content` is nullable in the schema. -/
structure DocumentRow where
  id : String
  title : String
  kind : DocKind
  content : Option String
  userId : String
  createdAt : Nat
deriving DecidableEq, Repr

/-- A row of the `suggestion` table. -/
structure SuggestionRow where
  id : String
  documentId : String
  documentCreatedAt : Nat
  originalText : String
  suggestedText : String
  description : String
  isResolved : Bool
  userId : String
  createdAt : Nat
deriving DecidableEq, Repr

/-- A row of the `vote` table. -/
structure VoteRow where
  chatId : String
  messageId : String
  isUpvoted : Bool
deriving DecidableEq, Repr

/-- The record store behind the persistence façade. -/
structure Storage where
  chats : List ChatRow
  messages : List MessageRow
  documents : List DocumentRow
  suggestions : List SuggestionRow
  votes : List VoteRow
deriving DecidableEq, Repr

/-- `getChatById`: `select ... where eq(chat.id, id)` destructured to its
first row. -/
def getChatById (st : Storage) (id : String) : Option ChatRow :=
  (st.chats.filter (fun c => c.id == id)).head?

/-- `getDocumentById`: `select ... where eq(document.id, id) orderBy desc
createdAt` destructured to its first row, i.e. the matching row with the
greatest `createdAt`. -/
def getDocumentById (st : Storage) (id : String) : Option DocumentRow :=
  (st.documents.filter (fun d => d.id == id)).foldl
    (fun best d =>
      match best with
      | none => some d
      | some b => if b.createdAt < d.createdAt then some d else some b)
    none

/-- `saveChat`: insert one chat row. -/
def saveChat (st : Storage) (id userId title : String) (now : Nat) : Storage :=
  { st with chats := st.chats ++ [{ id, userId, title, createdAt := now }] }

/-- `saveMessages`: batch-insert message rows. -/
def saveMessages (st : Storage) (msgs : List MessageRow) : Storage :=
  { st with messages := st.messages ++ msgs }

/-- `saveDocument`: insert one document row (a new revision; never an
in-place update). -/
def saveDocument (st : Storage) (id title : String) (kind : DocKind)
    (content : String) (userId : String) (now : Nat) : Storage :=
  { st with documents :=
      st.documents ++ [{ id, title, kind, content := some content, userId, createdAt := now }] }

/-- `saveSuggestions`: batch-insert suggestion rows. -/
def saveSuggestions (st : Storage) (rows : List SuggestionRow) : Storage :=
  { st with suggestions := st.suggestions ++ rows }

/-- `deleteChatById`: delete the chat's votes, then its messages, then the
chat row itself. -/
def deleteChatById (st : Storage) (id : String) : Storage :=
  { st with
      votes := st.votes.filter (fun v => !(v.chatId == id)),
      messages := st.messages.filter (fun m => !(m.chatId == id)),
      chats := st.chats.filter (fun c => !(c.id == id)) }

/-! ## Document content streamer (`streamDocumentContent` of `route.ts`) -/

/-- One part of the `fullStream` of a `streamText` call: a `text-delta`
part carrying a fragment, or any other part type (ignored by the loop). -/
inductive TextStreamPart
  | textDelta (textDelta : String)
  | otherPart
deriving DecidableEq, Repr

/-- One part of the `fullStream` of a `streamObject` call: an `object` part
whose partial object's `code` field may be absent, or any other part type.
`objectPart none` also stands for a partial object without a `code` field. -/
inductive ObjectStreamPart
  | objectPart (code : Option String)
  | otherPart
deriving DecidableEq, Repr

/-- Model-produced stream contents consumed by one `streamDocumentContent`
run: the text-stream parts (used for `text` kind) and the object-stream
parts (used for `code` kind). -/
structure StreamInput where
  textParts : List TextStreamPart
  objParts : List ObjectStreamPart
deriving DecidableEq, Repr

/-- Loop body of the `text` branch: on a `text-delta` part, append the
fragment to the accumulator and emit a `text-delta` event. -/
def textStep (acc : List StreamEvent × String) (p : TextStreamPart) :
    List StreamEvent × String :=
  match p with
  | TextStreamPart.textDelta s => (acc.1 ++ [StreamEvent.textDelta s], acc.2 ++ s)
  | TextStreamPart.otherPart => acc

/-- Loop body of the `code` branch: on an `object` part whose `code` field is
truthy (present and nonempty), replace the accumulator with it and emit a
`code-delta` event. -/
def codeStep (acc : List StreamEvent × String) (p : ObjectStreamPart) :
    List StreamEvent × String :=
  match p with
  | ObjectStreamPart.objectPart (some c) =>
      if c = "" then acc else (acc.1 ++ [StreamEvent.codeDelta c], c)
  | ObjectStreamPart.objectPart none => acc
  | ObjectStreamPart.otherPart => acc

/-- `streamDocumentContent` of `route.ts`: returns the events it wrote and
the final `draftText` accumulator. `hasSchema` mirrors the optional `schema`
argument (`kind === 'code' && schema` guards the object branch); `model`,
`sysPrompt` and `prompt` parametrize the LLM call whose output is `input`. -/
def streamDocumentContent (model : Model) (sysPrompt prompt : String)
    (hasSchema : Bool) (kind : DocKind) (input : StreamInput) :
    List StreamEvent × String :=
  match kind with
  | DocKind.text => input.textParts.foldl textStep ([], "")
  | DocKind.code =>
      if hasSchema then input.objParts.foldl codeStep ([], "") else ([], "")

/-! ## Tool handlers of `route.ts` -/

/-- Result value of `handleCreateDocument`. -/
structure CreateDocumentResult where
  id : String
  title : String
  kind : DocKind
  content : String
deriving DecidableEq, Repr

/-- `handleCreateDocument`: emit `id`, `title`, `kind`, `clear ''`, stream
the content, emit `finish ''`, persist the document, return the summary.
`freshId` is the `generateUUID()` result and `now` the insertion date. -/
def handleCreateDocument (st : Storage) (model : Model) (userId : String)
    (freshId : String) (now : Nat) (input : StreamInput)
    (title : String) (kind : DocKind) :
    List StreamEvent × Storage × CreateDocumentResult :=
  let pre := [StreamEvent.id freshId, StreamEvent.title title,
              StreamEvent.kind (kindToString kind), StreamEvent.clear ""]
  let sysPrompt :=
    if kind = DocKind.text then
      "Write about the given topic. Markdown is supported. Use headings wherever appropriate."
    else "codePrompt"
  let streamed := streamDocumentContent model sysPrompt title
    (kind == DocKind.code) kind input
  let events := pre ++ streamed.1 ++ [StreamEvent.finish ""]
  let st1 := saveDocument st freshId title kind streamed.2 userId now
  (events, st1,
   { id := freshId, title, kind,
     content := "A document was created and is now visible to the user." })

/-- Result value of `handleUpdateDocument`: either the not-found error
object or the success summary. -/
inductive UpdateDocumentResult
  | notFound
  | ok (id : String) (title : String) (kind : DocKind) (content : String)
deriving DecidableEq, Repr

/-- `handleUpdateDocument`: look the document up; on a missing id return the
error object at once; otherwise emit `clear` with the prior title, stream
the replacement content, emit `finish ''`, persist a new revision. -/
def handleUpdateDocument (st : Storage) (model : Model) (userId : String)
    (now : Nat) (input : StreamInput) (id description : String) :
    List StreamEvent × Storage × UpdateDocumentResult :=
  match getDocumentById st id with
  | none => ([], st, UpdateDocumentResult.notFound)
  | some doc =>
    let streamed := streamDocumentContent model
      ("updateDocumentPrompt " ++ (match doc.content with | some c => c | none => "null"))
      description (doc.kind == DocKind.code) doc.kind input
    let events := [StreamEvent.clear doc.title] ++ streamed.1 ++ [StreamEvent.finish ""]
    let st1 := saveDocument st id doc.title doc.kind streamed.2 userId now
    (events, st1,
     UpdateDocumentResult.ok id doc.title doc.kind
       "The document has been updated successfully.")

/-- One element of the `elementStream` of the suggestions `streamObject`
call. -/
structure SuggestionElement where
  originalSentence : String
  suggestedSentence : String
  description : String
deriving DecidableEq, Repr

/-- The suggestion object `handleRequestSuggestions` builds for the `i`-th
element: texts copied from the element, a fresh id, the target document id,
`isResolved := false`. -/
def buildSuggestion (documentId : String) (freshId : String)
    (e : SuggestionElement) : StreamedSuggestion :=
  { originalText := e.originalSentence,
    suggestedText := e.suggestedSentence,
    description := e.description,
    id := freshId,
    documentId := documentId,
    isResolved := false }

/-- The full list of suggestion objects built from an element stream, the
`i`-th one using `freshIds i` as its `generateUUID()` result. -/
def builtSuggestions (documentId : String) (freshIds : Nat → String)
    (elements : List SuggestionElement) : List StreamedSuggestion :=
  elements.enum.map (fun p => buildSuggestion documentId (freshIds p.1) p.2)

/-- Row persisted by `saveSuggestions` for one streamed suggestion:
the streamed fields plus `userId`, `createdAt` and the source document
revision's `documentCreatedAt`. -/
def toSuggestionRow (s : StreamedSuggestion) (userId : String) (now : Nat)
    (documentCreatedAt : Nat) : SuggestionRow :=
  { id := s.id, documentId := s.documentId, documentCreatedAt,
    originalText := s.originalText, suggestedText := s.suggestedText,
    description := s.description, isResolved := s.isResolved,
    userId, createdAt := now }

/-- Result value of `handleRequestSuggestions`. -/
inductive RequestSuggestionsResult
  | notFound
  | ok (id : String) (title : String) (kind : DocKind) (message : String)
deriving DecidableEq, Repr

/-- `handleRequestSuggestions`: `if (!document?.content)` returns the error
object when the document is missing or its content is null or empty;
otherwise every element of the element stream is turned into a suggestion,
streamed as a `suggestion` event, and the whole batch is persisted with
`userId`, `createdAt` and `documentCreatedAt` added. -/
def handleRequestSuggestions (st : Storage) (model : Model) (userId : String)
    (elements : List SuggestionElement) (freshIds : Nat → String) (now : Nat)
    (documentId : String) :
    List StreamEvent × Storage × RequestSuggestionsResult :=
  match getDocumentById st documentId with
  | none => ([], st, RequestSuggestionsResult.notFound)
  | some doc =>
    match doc.content with
    | none => ([], st, RequestSuggestionsResult.notFound)
    | some content =>
      if content = "" then ([], st, RequestSuggestionsResult.notFound)
      else
        let suggs := builtSuggestions documentId freshIds elements
        let events := suggs.map StreamEvent.suggestion
        let st1 := saveSuggestions st
          (suggs.map (fun s => toSuggestionRow s userId now doc.createdAt))
        (events, st1,
         RequestSuggestionsResult.ok documentId doc.title doc.kind
           "Suggestions have been added to the document")

/-! ## Chat request handler (`POST` / `DELETE` of `route.ts`) -/

/-- An incoming message of the request body, at core-message granularity
(what `convertToCoreMessages` produces: a role and content). -/
structure IncomingMessage where
  role : String
  content : String
deriving DecidableEq, Repr

/-- The parsed `POST` body `{ id, messages, modelId }`. -/
structure ChatRequestBody where
  id : String
  messages : List IncomingMessage
  modelId : String
deriving DecidableEq, Repr

/-- `getMostRecentUserMessage` of `lib/utils.ts`: last element of the
messages filtered to role `user`. -/
def getMostRecentUserMessage (messages : List IncomingMessage) :
    Option IncomingMessage :=
  (messages.filter (fun m => m.role == "user")).getLast?

/-- `validateModel` of `route.ts`: find the requested id in `models`
(the source throws `Model not found` on `none`; `POST` maps that to 404). -/
def validateModel (modelId : String) : Option Model :=
  models.find? (fun m => m.id == modelId)

/-- `getOrCreateChat` of `route.ts`: create the chat with the generated
title when the id is unknown. -/
def getOrCreateChat (st : Storage) (id userId title : String) (now : Nat) :
    Storage :=
  match getChatById st id with
  | none => saveChat st id userId title now
  | some _ => st

/-- `saveUserMessage` of `route.ts`: persist the incoming user message under
a fresh id. -/
def saveUserMessage (st : Storage) (chatId : String) (userMessage : IncomingMessage)
    (userMessageId : String) (now : Nat) : Storage :=
  saveMessages st
    [{ id := userMessageId, chatId, role := userMessage.role,
       content := userMessage.content, createdAt := now }]

/-- Environment of one `POST` request: `body` is the `request.json()` result
(`none` models a parse throw), `session` the `auth()` user id (`none` models
a missing session, which `authenticateUser` turns into the `Unauthorized`
throw), `generatedTitle` the `generateTitleFromUserMessage` result,
`userMessageId` the `generateUUID()` result and `now` the clock. -/
structure PostEnv where
  body : Option ChatRequestBody
  session : Option String
  generatedTitle : String
  userMessageId : String
  now : Nat
deriving DecidableEq, Repr

/-- The pre-streaming phase of `POST`: returns the HTTP status, the events
written to the data stream during this phase, and the storage. Failure
statuses follow the source's catch clause (`Unauthorized` → 401,
`Model not found` → 404, any other throw → 500) and the early
`handleApiError(new Error('No user message found'), 400)` return; on
success the stream is opened and its first write is the `user-message-id`
event (the in-stream tool behaviour is modelled by the `handle*` functions
above). -/
def POST (env : PostEnv) (st : Storage) : Nat × List StreamEvent × Storage :=
  match env.body with
  | none => (500, [], st)
  | some body =>
    match env.session with
    | none => (401, [], st)
    | some userId =>
      match validateModel body.modelId with
      | none => (404, [], st)
      | some _model =>
        match getMostRecentUserMessage body.messages with
        | none => (400, [], st)
        | some userMessage =>
          let st1 := getOrCreateChat st body.id userId env.generatedTitle env.now
          let st2 := saveUserMessage st1 body.id userMessage env.userMessageId env.now
          (200, [StreamEvent.userMessageId env.userMessageId], st2)

/-- Environment of one `DELETE` request: the `id` query parameter and the
`auth()` session user id. -/
structure DeleteEnv where
  chatId : Option String
  session : Option String
deriving DecidableEq, Repr

/-- `DELETE` of `route.ts`: missing id → 404; missing session → the
`Unauthorized` throw, caught as 401; unknown chat id → `getChatById` yields
`undefined` and `chat.userId` throws a TypeError whose message is not
`Unauthorized`, caught as 500; owner mismatch → 401 without deleting;
otherwise cascade-delete and return 200. -/
def DELETE (env : DeleteEnv) (st : Storage) : Nat × Storage :=
  match env.chatId with
  | none => (404, st)
  | some id =>
    match env.session with
    | none => (401, st)
    | some userId =>
      match getChatById st id with
      | none => (500, st)
      | some chat =>
        if chat.userId ≠ userId then (401, st)
        else (200, deleteChatById st id)

/-! ## Recursive characterizations of the streaming folds (spec helpers) -/

/-- Events the `text` branch emits for a part list. -/
def textEvents : List TextStreamPart → List StreamEvent
  | [] => []
  | TextStreamPart.textDelta s :: rest => StreamEvent.textDelta s :: textEvents rest
  | TextStreamPart.otherPart :: rest => textEvents rest

/-- Accumulator the `text` branch builds for a part list. -/
def textAccum : List TextStreamPart → String
  | [] => ""
  | TextStreamPart.textDelta s :: rest => s ++ textAccum rest
  | TextStreamPart.otherPart :: rest => textAccum rest

/-- Events the `code` branch emits for a part list. -/
def codeEvents : List ObjectStreamPart → List StreamEvent
  | [] => []
  | ObjectStreamPart.objectPart (some c) :: rest =>
      if c = "" then codeEvents rest else StreamEvent.codeDelta c :: codeEvents rest
  | ObjectStreamPart.objectPart none :: rest => codeEvents rest
  | ObjectStreamPart.otherPart :: rest => codeEvents rest

/-- Accumulator the `code` branch builds for a part list, starting from the
current draft `cur`. -/
def codeAccum : List ObjectStreamPart → String → String
  | [], cur => cur
  | ObjectStreamPart.objectPart (some c) :: rest, cur =>
      if c = "" then codeAccum rest cur else codeAccum rest c
  | ObjectStreamPart.objectPart none :: rest, cur => codeAccum rest cur
  | ObjectStreamPart.otherPart :: rest, cur => codeAccum rest cur

/-! ## Lemmas about the document content streamer -/

theorem foldl_textStep (parts : List TextStreamPart) :
    ∀ (evs : List StreamEvent) (s : String),
      parts.foldl textStep (evs, s) = (evs ++ textEvents parts, s ++ textAccum parts) := by
  induction parts with
  | nil => intro evs s; simp [textEvents, textAccum]
  | cons p rest ih =>
    intro evs s
    cases p with
    | textDelta t =>
      simp only [List.foldl_cons, textStep, textEvents, textAccum]
      rw [ih]
      simp [List.append_assoc, String.append_assoc]
    | otherPart =>
      simp only [List.foldl_cons, textStep, textEvents, textAccum]
      exact ih evs s

theorem foldl_codeStep (parts : List ObjectStreamPart) :
    ∀ (evs : List StreamEvent) (s : String),
      parts.foldl codeStep (evs, s) = (evs ++ codeEvents parts, codeAccum parts s) := by
  induction parts with
  | nil => intro evs s; simp [codeEvents, codeAccum]
  | cons p rest ih =>
    intro evs s
    cases p with
    | objectPart oc =>
      cases oc with
      | none =>
        simp only [List.foldl_cons, codeStep, codeEvents, codeAccum]
        exact ih evs s
      | some c =>
        by_cases hc : c = ""
        · simp only [List.foldl_cons, codeStep, codeEvents, codeAccum, hc, if_pos rfl]
          simpa using ih evs s
        · simp only [List.foldl_cons, codeStep, codeEvents, codeAccum, if_neg hc]
          rw [ih]
          simp [List.append_assoc]
    | otherPart =>
      simp only [List.foldl_cons, codeStep, codeEvents, codeAccum]
      exact ih evs s

theorem textAccum_eq_concat (parts : List TextStreamPart) :
    textAccum parts = emittedTextConcat (textEvents parts) := by
  induction parts with
  | nil => simp [textAccum, textEvents, emittedTextConcat]
  | cons p rest ih =>
    cases p with
    | textDelta t => simp [textAccum, textEvents, emittedTextConcat, ih]
    | otherPart => simp [textAccum, textEvents, ih]

theorem codeAccum_eq_last (parts : List ObjectStreamPart) :
    ∀ cur, codeAccum parts cur = lastCodeDeltaPayload (codeEvents parts) cur := by
  induction parts with
  | nil => intro cur; simp [codeAccum, codeEvents, lastCodeDeltaPayload]
  | cons p rest ih =>
    intro cur
    cases p with
    | objectPart oc =>
      cases oc with
      | none => simpa [codeAccum, codeEvents] using ih cur
      | some c =>
        by_cases hc : c = ""
        · simpa [codeAccum, codeEvents, hc] using ih cur
        · simp [codeAccum, codeEvents, hc, lastCodeDeltaPayload, ih]
    | otherPart => simpa [codeAccum, codeEvents] using ih cur

theorem textEvents_all_delta (parts : List TextStreamPart) :
    ∀ e ∈ textEvents parts, isDeltaEvent e = true := by
  induction parts with
  | nil => simp [textEvents]
  | cons p rest ih =>
    cases p with
    | textDelta t =>
      intro e he
      simp only [textEvents, List.mem_cons] at he
      rcases he with rfl | he
      · rfl
      · exact ih e he
    | otherPart => simpa [textEvents] using ih

theorem codeEvents_all_delta (parts : List ObjectStreamPart) :
    ∀ e ∈ codeEvents parts, isDeltaEvent e = true := by
  induction parts with
  | nil => simp [codeEvents]
  | cons p rest ih =>
    cases p with
    | objectPart oc =>
      cases oc with
      | none => simpa [codeEvents] using ih
      | some c =>
        by_cases hc : c = ""
        · simpa [codeEvents, hc] using ih
        · intro e he
          simp only [codeEvents, if_neg hc, List.mem_cons] at he
          rcases he with rfl | he
          · rfl
          · exact ih e he
    | otherPart => simpa [codeEvents] using ih

theorem streamDocumentContent_all_delta (model : Model) (sysPrompt prompt : String)
    (hs : Bool) (kind : DocKind) (input : StreamInput) :
    ∀ e ∈ (streamDocumentContent model sysPrompt prompt hs kind input).1,
      isDeltaEvent e = true := by
  cases kind with
  | text =>
    simp only [streamDocumentContent, foldl_textStep, List.nil_append]
    exact textEvents_all_delta input.textParts
  | code =>
    cases hs with
    | true =>
      simp only [streamDocumentContent, foldl_codeStep, List.nil_append, if_pos]
      exact codeEvents_all_delta input.objParts
    | false => simp [streamDocumentContent]

/-! ## Claim theorems -/

/-- C6: for every run of the Document Content Streamer, with kind `text` the
returned accumulator equals the in-order concatenation of the payloads of
the `text-delta` events it emitted; with kind `code` the accumulator equals
the payload of the last `code-delta` event it emitted, or the empty string
when none was emitted. -/
theorem streamDocumentContent_accumulator (model : Model) (sysPrompt prompt : String)
    (hs : Bool) (input : StreamInput) :
    (streamDocumentContent model sysPrompt prompt hs DocKind.text input).2
      = emittedTextConcat (streamDocumentContent model sysPrompt prompt hs DocKind.text input).1
    ∧ (streamDocumentContent model sysPrompt prompt hs DocKind.code input).2
      = lastCodeDeltaPayload (streamDocumentContent model sysPrompt prompt hs DocKind.code input).1 "" := by
  constructor
  · simp only [streamDocumentContent, foldl_textStep, List.nil_append]
    have h := textAccum_eq_concat input.textParts
    simpa using h
  · cases hs with
    | true =>
      simp only [streamDocumentContent, foldl_codeStep, List.nil_append, if_pos]
      exact codeAccum_eq_last input.objParts ""
    | false => simp [streamDocumentContent, lastCodeDeltaPayload]

/-- C3: every `createDocument` invocation emits the `id`, `title`, `kind`
and `clear` events in exactly that order, strictly before any delta event,
and exactly one `finish` event after the last delta — even when no delta
was emitted at all. -/
theorem createDocument_event_protocol (st : Storage) (model : Model)
    (userId freshId : String) (now : Nat) (input : StreamInput)
    (title : String) (kind : DocKind) :
    ∃ ds,
      (handleCreateDocument st model userId freshId now input title kind).1
        = [StreamEvent.id freshId, StreamEvent.title title,
           StreamEvent.kind (kindToString kind), StreamEvent.clear ""]
          ++ ds ++ [StreamEvent.finish ""]
      ∧ (∀ e ∈ ds, isDeltaEvent e = true)
      ∧ List.countP isFinishEvent
          (handleCreateDocument st model userId freshId now input title kind).1 = 1 := by
  refine ⟨(streamDocumentContent model
      (if kind = DocKind.text then
        "Write about the given topic. Markdown is supported. Use headings wherever appropriate."
      else "codePrompt") title (kind == DocKind.code) kind input).1, ?_, ?_, ?_⟩
  · simp [handleCreateDocument]
  · exact streamDocumentContent_all_delta _ _ _ _ _ _
  · simp only [handleCreateDocument]
    rw [List.countP_append, List.countP_append]
    have h1 : List.countP isFinishEvent
        [StreamEvent.id freshId, StreamEvent.title title,
         StreamEvent.kind (kindToString kind), StreamEvent.clear ""] = 0 := by
      simp [List.countP_cons, isFinishEvent, List.countP_nil]
    have h2 : List.countP isFinishEvent
        (streamDocumentContent model
          (if kind = DocKind.text then
            "Write about the given topic. Markdown is supported. Use headings wherever appropriate."
          else "codePrompt") title (kind == DocKind.code) kind input).1 = 0 := by
      rw [List.countP_eq_zero]
      intro e he
      have hd := streamDocumentContent_all_delta model _ title (kind == DocKind.code) kind input e he
      cases e <;> simp_all [isDeltaEvent, isFinishEvent]
    rw [h1, h2]
    simp [List.countP_cons, List.countP_nil, isFinishEvent]

/-- C1 (code bug): at module initialization `lib/ai/index.ts` writes the
full Anthropic API key to the log — for the concrete key
`sk-ant-api03-abcd1234wxyz` the logged line contains the complete secret,
while the repository's own documented `maskApiKey` helper would not have
leaked it. This contradicts the claim that only a masked form (first/last
few characters) is ever logged. -/
theorem anthropic_init_log_contains_full_key :
    strContains (anthropicKeyInitLog (some "sk-ant-api03-abcd1234wxyz"))
        "sk-ant-api03-abcd1234wxyz" = true
    ∧ strContains (maskApiKey (some "sk-ant-api03-abcd1234wxyz"))
        "sk-ant-api03-abcd1234wxyz" = false := by
  decide

/-- C2: an `updateDocument` invocation whose document id is not in storage
returns the not-found result, emits no stream event, and leaves the whole
storage (documents included) unchanged. -/
theorem updateDocument_missing_id_no_effects (st : Storage) (model : Model)
    (userId : String) (now : Nat) (input : StreamInput) (id description : String)
    (h : getDocumentById st id = none) :
    handleUpdateDocument st model userId now input id description
      = ([], st, UpdateDocumentResult.notFound) := by
  simp [handleUpdateDocument, h]

/-- Witness for C2: concrete invocation on an empty storage. -/
theorem updateDocument_missing_id_no_effects_witness :
    handleUpdateDocument ⟨[], [], [], [], []⟩
        ⟨"gpt-4o", "Weiming AI Standard", "gpt-4o", "For complex, multi-step tasks"⟩
        "user-1" 3 ⟨[], []⟩ "doc-1" "make it better"
      = ([], ⟨[], [], [], [], []⟩, UpdateDocumentResult.notFound) :=
  updateDocument_missing_id_no_effects ⟨[], [], [], [], []⟩
    ⟨"gpt-4o", "Weiming AI Standard", "gpt-4o", "For complex, multi-step tasks"⟩
    "user-1" 3 ⟨[], []⟩ "doc-1" "make it better" (by decide)

/-- C5 counterexample: a concrete `updateDocument` invocation on an existing
document emits only `clear` (with the prior title) before its deltas — no
freshly generated `id` event, no `title` event, no `kind` event — refuting
the claim that every streaming invocation (update included) emits
`id`/`title`/`kind`/`clear` before the deltas. -/
theorem updateDocument_emits_no_id_event :
    (handleUpdateDocument
        ⟨[], [], [⟨"d1", "Essay", DocKind.text, some "Hello", "u1", 5⟩], [], []⟩
        ⟨"gpt-4o", "Weiming AI Standard", "gpt-4o", "For complex, multi-step tasks"⟩
        "u1" 9 ⟨[TextStreamPart.textDelta "Hi"], []⟩ "d1" "shorten").1
      = [StreamEvent.clear "Essay", StreamEvent.textDelta "Hi", StreamEvent.finish ""]
    ∧ [StreamEvent.clear "Essay", StreamEvent.textDelta "Hi",
       StreamEvent.finish ""].any isIdEvent = false := by
  decide

/-- C5 as amended: before any delta, a `createDocument` invocation emits
`id` (freshly generated), `title`, `kind` and `clear ""` in that order,
while an `updateDocument` invocation on an existing document emits only a
`clear` event carrying the prior document title. -/
theorem document_stream_prelude (st : Storage) (model : Model)
    (userId freshId : String) (now : Nat) (input : StreamInput)
    (title : String) (kind : DocKind) (id description : String)
    (doc : DocumentRow) (hdoc : getDocumentById st id = some doc) :
    (∃ ds, (handleCreateDocument st model userId freshId now input title kind).1
        = [StreamEvent.id freshId, StreamEvent.title title,
           StreamEvent.kind (kindToString kind), StreamEvent.clear ""]
          ++ ds ++ [StreamEvent.finish ""]
      ∧ ∀ e ∈ ds, isDeltaEvent e = true)
    ∧ (∃ ds, (handleUpdateDocument st model userId now input id description).1
        = [StreamEvent.clear doc.title] ++ ds ++ [StreamEvent.finish ""]
      ∧ ∀ e ∈ ds, isDeltaEvent e = true) := by
  constructor
  · refine ⟨(streamDocumentContent model
        (if kind = DocKind.text then
          "Write about the given topic. Markdown is supported. Use headings wherever appropriate."
        else "codePrompt") title (kind == DocKind.code) kind input).1, ?_, ?_⟩
    · simp [handleCreateDocument]
    · exact streamDocumentContent_all_delta _ _ _ _ _ _
  · refine ⟨(streamDocumentContent model
        ("updateDocumentPrompt " ++ (match doc.content with | some c => c | none => "null"))
        description (doc.kind == DocKind.code) doc.kind input).1, ?_, ?_⟩
    · simp [handleUpdateDocument, hdoc]
    · exact streamDocumentContent_all_delta _ _ _ _ _ _

/-- Witness for the amended C5: the concrete update run above produces
exactly the `clear`-then-delta-then-finish shape. -/
theorem document_stream_prelude_witness :
    ∃ ds, (handleUpdateDocument
        ⟨[], [], [⟨"d1", "Essay", DocKind.text, some "Hello", "u1", 5⟩], [], []⟩
        ⟨"gpt-4o", "Weiming AI Standard", "gpt-4o", "For complex, multi-step tasks"⟩
        "u1" 9 ⟨[TextStreamPart.textDelta "Hi"], []⟩ "d1" "shorten").1
      = [StreamEvent.clear "Essay"] ++ ds ++ [StreamEvent.finish ""]
      ∧ ∀ e ∈ ds, isDeltaEvent e = true :=
  (document_stream_prelude
    ⟨[], [], [⟨"d1", "Essay", DocKind.text, some "Hello", "u1", 5⟩], [], []⟩
    ⟨"gpt-4o", "Weiming AI Standard", "gpt-4o", "For complex, multi-step tasks"⟩
    "u1" "fresh" 9 ⟨[TextStreamPart.textDelta "Hi"], []⟩ "T" DocKind.text
    "d1" "shorten" ⟨"d1", "Essay", DocKind.text, some "Hello", "u1", 5⟩
    (by decide)).2

/-! ## Idempotence of sanitization (C8) -/

theorem toolResultIds_sanitize (ids : List String) (ms : List RespMessage) :
    toolResultIds ((ms.map (sanitizeMessage ids)).filter keepNonEmpty)
      = toolResultIds ms := by
  induction ms with
  | nil => rfl
  | cons m rest ih =>
    simp only [List.map_cons, List.filter_cons]
    cases m with
    | assistant c =>
      have hc2 : ∃ c2, sanitizeMessage ids (RespMessage.assistant c)
          = RespMessage.assistant c2 := by
        cases c with
        | str s => exact ⟨RespContent.str s, rfl⟩
        | parts ps => exact ⟨RespContent.parts (ps.filter (keepPart ids)), rfl⟩
      obtain ⟨c2, hc2⟩ := hc2
      rw [hc2]
      cases hkeep : keepNonEmpty (RespMessage.assistant c2) with
      | true => simp [hkeep, toolResultIds, ih]
      | false => simp [hkeep, toolResultIds, ih]
    | toolMsg ps =>
      have hsame : sanitizeMessage ids (RespMessage.toolMsg ps)
          = RespMessage.toolMsg ps := rfl
      rw [hsame]
      cases hkeep : keepNonEmpty (RespMessage.toolMsg ps) with
      | true => simp [hkeep, toolResultIds, ih]
      | false =>
        have hkeep2 : decide (0 < ps.length) = false := hkeep
        have hnil : ps = [] :=
          List.length_eq_zero.mp (Nat.eq_zero_of_not_pos (of_decide_eq_false hkeep2))
        subst hnil
        simp [hkeep, toolResultIds, ih]

theorem sanitizeMessage_idem (ids : List String) (m : RespMessage) :
    sanitizeMessage ids (sanitizeMessage ids m) = sanitizeMessage ids m := by
  cases m with
  | assistant c =>
    cases c with
    | str s => rfl
    | parts ps => simp [sanitizeMessage]
  | toolMsg ps => rfl

theorem filter_map_idem {α : Type} (g : α → α) (P : α → Bool)
    (hg : ∀ a, g (g a) = g a) (l : List α) :
    (((((l.map g).filter P).map g).filter P) : List α) = (l.map g).filter P := by
  induction l with
  | nil => rfl
  | cons a l ih =>
    cases h : P (g a) with
    | true => simp [List.filter_cons, h, hg a, ih]
    | false => simp [List.filter_cons, h, ih]

/-- C8: `sanitizeResponseMessages` is idempotent — applying it to its own
output returns that output unchanged, for every list of assistant and tool
messages. -/
theorem sanitizeResponseMessages_idempotent (ms : List RespMessage) :
    sanitizeResponseMessages (sanitizeResponseMessages ms)
      = sanitizeResponseMessages ms := by
  simp only [sanitizeResponseMessages]
  rw [toolResultIds_sanitize]
  exact filter_map_idem (sanitizeMessage (toolResultIds ms))
    keepNonEmpty (sanitizeMessage_idem _) ms

/-! ## Suggestions (C4) -/

theorem suggestionPayloads_map (l : List StreamedSuggestion) :
    suggestionPayloads (l.map StreamEvent.suggestion) = l := by
  induction l with
  | nil => rfl
  | cons s rest ih => simp [suggestionPayloads, ih]

theorem enumFrom_build_texts (documentId : String) (freshIds : Nat → String)
    (elements : List SuggestionElement) :
    ∀ n, (((List.enumFrom n elements).map
        (fun p => buildSuggestion documentId (freshIds p.1) p.2)).map
          (fun s => (s.originalText, s.suggestedText)))
      = elements.map (fun e => (e.originalSentence, e.suggestedSentence)) := by
  induction elements with
  | nil => intro n; rfl
  | cons e rest ih =>
    intro n
    simp only [List.enumFrom, List.map_cons, List.map_map]
    have h := ih (n + 1)
    rw [List.map_map] at h
    rw [h]
    rfl

/-- C4 counterexample: nothing in the code bounds the number of streamed
suggestions by 5 — with an element stream of six elements, six `suggestion`
events are streamed on an existing document with non-empty content,
refuting the claimed "at most 5". -/
theorem requestSuggestions_can_stream_six :
    List.countP isSuggestionEvent
      (handleRequestSuggestions
        ⟨[], [], [⟨"d1", "Notes", DocKind.text, some "The cat sat.", "u1", 2⟩], [], []⟩
        ⟨"gpt-4o", "Weiming AI Standard", "gpt-4o", "For complex, multi-step tasks"⟩
        "u1"
        [⟨"a", "b", "c"⟩, ⟨"d", "e", "f"⟩, ⟨"g", "h", "i"⟩,
         ⟨"j", "k", "l"⟩, ⟨"m", "n", "o"⟩, ⟨"p", "q", "r"⟩]
        (fun i => toString i) 7 "d1").1 = 6
    ∧ ¬ (6 ≤ 5) := by
  constructor
  · decide
  · decide

/-- C4 as amended: a `requestSuggestions` invocation on an existing document
with non-empty content streams exactly one suggestion object per element of
the model's element stream (the max-5 bound is only requested in the prompt,
not enforced), and the persisted rows are exactly the streamed objects
extended with `userId`/`createdAt`/`documentCreatedAt`, with matching
original and suggested text. -/
theorem requestSuggestions_streamed_equals_persisted
    (st : Storage) (model : Model) (userId : String)
    (elements : List SuggestionElement) (freshIds : Nat → String) (now : Nat)
    (documentId : String) (doc : DocumentRow) (content : String)
    (h1 : getDocumentById st documentId = some doc)
    (h2 : doc.content = some content) (h3 : content ≠ "") :
    suggestionPayloads
        (handleRequestSuggestions st model userId elements freshIds now documentId).1
      = builtSuggestions documentId freshIds elements
    ∧ (handleRequestSuggestions st model userId elements freshIds now documentId).2.1.suggestions
      = st.suggestions ++ (builtSuggestions documentId freshIds elements).map
          (fun s => toSuggestionRow s userId now doc.createdAt)
    ∧ ((builtSuggestions documentId freshIds elements).map
          (fun s => (s.originalText, s.suggestedText)))
      = elements.map (fun e => (e.originalSentence, e.suggestedSentence)) := by
  have hrun : handleRequestSuggestions st model userId elements freshIds now documentId
      = ((builtSuggestions documentId freshIds elements).map StreamEvent.suggestion,
         saveSuggestions st ((builtSuggestions documentId freshIds elements).map
           (fun s => toSuggestionRow s userId now doc.createdAt)),
         RequestSuggestionsResult.ok documentId doc.title doc.kind
           "Suggestions have been added to the document") := by
    simp [handleRequestSuggestions, h1, h2, h3]
  rw [hrun]
  refine ⟨suggestionPayloads_map _, by simp [saveSuggestions], ?_⟩
  show ((builtSuggestions documentId freshIds elements).map
      (fun s => (s.originalText, s.suggestedText)))
    = elements.map (fun e => (e.originalSentence, e.suggestedSentence))
  unfold builtSuggestions List.enum
  exact enumFrom_build_texts documentId freshIds elements 0

/-- Witness for the amended C4: one concrete element on a concrete document
streams exactly that suggestion. -/
theorem requestSuggestions_streamed_equals_persisted_witness :
    suggestionPayloads
        (handleRequestSuggestions
          ⟨[], [], [⟨"d1", "Notes", DocKind.text, some "The cat sat.", "u1", 2⟩], [], []⟩
          ⟨"gpt-4o", "Weiming AI Standard", "gpt-4o", "For complex, multi-step tasks"⟩
          "u1" [⟨"The cat sat.", "The cat sat down.", "clearer"⟩]
          (fun i => "sg" ++ toString i) 7 "d1").1
      = builtSuggestions "d1" (fun i => "sg" ++ toString i)
          [⟨"The cat sat.", "The cat sat down.", "clearer"⟩] :=
  (requestSuggestions_streamed_equals_persisted
    ⟨[], [], [⟨"d1", "Notes", DocKind.text, some "The cat sat.", "u1", 2⟩], [], []⟩
    ⟨"gpt-4o", "Weiming AI Standard", "gpt-4o", "For complex, multi-step tasks"⟩
    "u1" [⟨"The cat sat.", "The cat sat down.", "clearer"⟩]
    (fun i => "sg" ++ toString i) 7 "d1"
    ⟨"d1", "Notes", DocKind.text, some "The cat sat.", "u1", 2⟩
    "The cat sat." (by decide) rfl (by decide)).1

/-! ## Request-handler error paths (C7, C9, C10) -/

/-- C7 counterexample: an authenticated request for a configured model whose
message list contains no user message fails before streaming with status
400 — not 401, 404 or 500 as the claim's case split would require — so the
claimed status assignment is incomplete. -/
theorem post_missing_user_message_returns_400 :
    (POST ⟨some ⟨"c1", [⟨"assistant", "hello"⟩], "gpt-4o"⟩, some "u1", "t", "m1", 0⟩
        ⟨[], [], [], [], []⟩).1 = 400
    ∧ ((400 : Nat) ≠ 401 ∧ (400 : Nat) ≠ 404 ∧ (400 : Nat) ≠ 500) := by
  constructor
  · decide
  · decide

/-- C7 as amended: every failure before streaming short-circuits without
emitting any stream event and without touching storage, with status 401
when authentication fails, 404 when the model id is not configured, 400
when no user message is present, and 500 when body parsing throws. -/
theorem post_prestream_error_statuses (env : PostEnv) (st : Storage) :
    (env.body = none → POST env st = (500, [], st))
    ∧ (∀ b, env.body = some b → env.session = none → POST env st = (401, [], st))
    ∧ (∀ b uid, env.body = some b → env.session = some uid →
        validateModel b.modelId = none → POST env st = (404, [], st))
    ∧ (∀ b uid m, env.body = some b → env.session = some uid →
        validateModel b.modelId = some m →
        getMostRecentUserMessage b.messages = none → POST env st = (400, [], st)) := by
  refine ⟨?_, ?_, ?_, ?_⟩
  · intro h
    simp [POST, h]
  · intro b hb hs
    simp [POST, hb, hs]
  · intro b uid hb hs hm
    simp [POST, hb, hs, hm]
  · intro b uid m hb hs hm hu
    simp [POST, hb, hs, hm, hu]

/-- Witness for the amended C7: the three thrown-failure statuses at
concrete requests. -/
theorem post_prestream_error_statuses_witness :
    POST ⟨some ⟨"c1", [⟨"user", "hi"⟩], "no-such-model"⟩, some "u1", "t", "m1", 0⟩
        ⟨[], [], [], [], []⟩ = (404, [], ⟨[], [], [], [], []⟩)
    ∧ POST ⟨some ⟨"c1", [], "gpt-4o"⟩, none, "t", "m1", 0⟩
        ⟨[], [], [], [], []⟩ = (401, [], ⟨[], [], [], [], []⟩)
    ∧ POST ⟨none, some "u1", "t", "m1", 0⟩
        ⟨[], [], [], [], []⟩ = (500, [], ⟨[], [], [], [], []⟩) := by
  refine ⟨?_, ?_, ?_⟩
  · exact (post_prestream_error_statuses
      ⟨some ⟨"c1", [⟨"user", "hi"⟩], "no-such-model"⟩, some "u1", "t", "m1", 0⟩
      ⟨[], [], [], [], []⟩).2.2.1 _ "u1" rfl rfl (by decide)
  · exact (post_prestream_error_statuses
      ⟨some ⟨"c1", [], "gpt-4o"⟩, none, "t", "m1", 0⟩
      ⟨[], [], [], [], []⟩).2.1 _ rfl rfl
  · exact (post_prestream_error_statuses
      ⟨none, some "u1", "t", "m1", 0⟩ ⟨[], [], [], [], []⟩).1 rfl

/-- C9: an authorized deletion of an existing chat by its owner returns 200,
removes every message and every vote of that chat from storage, and a
subsequent `getChatById` on that id returns nothing. -/
theorem delete_chat_cascades (env : DeleteEnv) (st : Storage)
    (id uid : String) (c : ChatRow)
    (hid : env.chatId = some id) (hs : env.session = some uid)
    (hc : getChatById st id = some c) (hown : c.userId = uid) :
    (DELETE env st).1 = 200
    ∧ (∀ m ∈ (DELETE env st).2.messages, m.chatId ≠ id)
    ∧ (∀ v ∈ (DELETE env st).2.votes, v.chatId ≠ id)
    ∧ getChatById (DELETE env st).2 id = none := by
  have hrun : DELETE env st = (200, deleteChatById st id) := by
    simp [DELETE, hid, hs, hc, hown]
  rw [hrun]
  refine ⟨rfl, ?_, ?_, ?_⟩
  · intro m hm
    have h2 := (List.mem_filter.mp hm).2
    simpa using h2
  · intro v hv
    have h2 := (List.mem_filter.mp hv).2
    simpa using h2
  · simp only [getChatById, deleteChatById]
    have hnil : (st.chats.filter (fun c => !(c.id == id))).filter
        (fun c => c.id == id) = [] := by
      rw [List.filter_filter]
      apply List.eq_nil_of_length_eq_zero
      rw [List.length_eq_zero]
      apply List.filter_eq_nil_iff.mpr
      intro a _
      cases h : a.id == id <;> simp [h]
    simp [hnil]

/-- Witness for C9: deleting a concrete owned chat with one message and one
vote. -/
theorem delete_chat_cascades_witness :
    (DELETE ⟨some "c1", some "u1"⟩
      ⟨[⟨"c1", "u1", "Chat", 1⟩], [⟨"m1", "c1", "user", "hi", 2⟩], [], [],
       [⟨"c1", "m1", true⟩]⟩).1 = 200
    ∧ getChatById (DELETE ⟨some "c1", some "u1"⟩
        ⟨[⟨"c1", "u1", "Chat", 1⟩], [⟨"m1", "c1", "user", "hi", 2⟩], [], [],
         [⟨"c1", "m1", true⟩]⟩).2 "c1" = none := by
  refine ⟨?_, ?_⟩
  · exact (delete_chat_cascades _ _ "c1" "u1" ⟨"c1", "u1", "Chat", 1⟩
      rfl rfl (by decide) rfl).1
  · exact (delete_chat_cascades _ _ "c1" "u1" ⟨"c1", "u1", "Chat", 1⟩
      rfl rfl (by decide) rfl).2.2.2

/-- C10: an authenticated `DELETE` for a chat id that is not in storage hits
the `undefined` chat lookup, whose `chat.userId` dereference throws, and the
handler answers 500 (not a not-found status) with storage untouched. -/
theorem delete_missing_chat_returns_500 (env : DeleteEnv) (st : Storage)
    (id uid : String)
    (hid : env.chatId = some id) (hs : env.session = some uid)
    (hc : getChatById st id = none) :
    DELETE env st = (500, st) := by
  simp [DELETE, hid, hs, hc]

/-- Witness for C10: concrete deletion of an unknown chat id on an empty
storage. -/
theorem delete_missing_chat_returns_500_witness :
    DELETE ⟨some "c1", some "u1"⟩ ⟨[], [], [], [], []⟩
      = (500, ⟨[], [], [], [], []⟩) :=
  delete_missing_chat_returns_500 ⟨some "c1", some "u1"⟩ ⟨[], [], [], [], []⟩
    "c1" "u1" rfl rfl (by decide)
